import Mathlib

/-!
Verification development for the solr-token-sale JavaScript client
(js/client/token-sale.js and its companions).  The definitions below are a
shallow embedding of the client code: byte buffers are lists of naturals,
public keys are an abstract inductive type (base58 constants of the source
become `ofBase58` values, program-derived addresses of the external web3
library become the symbolic `derived` constructor), fallible code returns
`Option`, and each orchestrator method additionally returns the list of
network calls it performs.
-/

/-- A byte buffer, each entry intended to be a byte value below 256. -/
abbrev Bytes := List Nat

/-- A ledger address.  Base58 string constants from the source are kept
symbolic; `derived` models the deterministic program-derived-address
computation of the external web3 library (sha256 plus bump search), which is
a function of the seed list and the program id only. -/
inductive PublicKey
  | ofBase58 (s : String)
  | derived (seeds : List Bytes) (program : PublicKey)
deriving DecidableEq, Repr

/-- A keypair; only the public half is observable in the embedded client. -/
structure Account where
  publicKey : PublicKey
deriving DecidableEq, Repr

/-- One entry of an instruction's ordered account-reference list. -/
structure AccountMeta where
  pubkey : PublicKey
  isSigner : Bool
  isWritable : Bool
deriving DecidableEq, Repr

/-- An instruction addressed to a program: account references, program id
and the opcode-plus-arguments data buffer. -/
structure TransactionInstruction where
  keys : List AccountMeta
  programId : PublicKey
  data : Bytes
deriving DecidableEq, Repr

namespace Numberu64

/-- Minimal little-endian base-256 digit expansion, fuel-indexed so that the
recursion is structural; called with `fuel = v` it computes the minimal
digit list of `v` (empty for zero). -/
def toArrayLEAux : Nat → Nat → Bytes
  | 0, _ => []
  | fuel + 1, v => if v = 0 then [] else v % 256 :: toArrayLEAux fuel (v / 256)

/-- Embeds `BN.prototype.toArray()`: the minimal big-endian byte array of the
value, with at least one byte (zero encodes as a single zero byte). -/
def toArray (v : Nat) : Bytes :=
  if v = 0 then [0] else (toArrayLEAux v v).reverse

/-- Embeds `Numberu64.toBuffer`: reverse the big-endian array to little
endian; if it already spans 8 bytes return it, if it is shorter zero-pad it
on the high side to 8 bytes, and if it is longer fail (the source asserts
with message Numberu64 too large). -/
def toBuffer (v : Nat) : Option Bytes :=
  let b := (toArray v).reverse
  if b.length = 8 then some b
  else if b.length < 8 then some (b ++ List.replicate (8 - b.length) 0)
  else none

/-- Embeds `Numberu64.fromBuffer`: assert the buffer has exactly 8 bytes,
then read it as a little-endian base-256 numeral (the source reverses the
bytes and parses the resulting hex string). -/
def fromBuffer (buffer : Bytes) : Option Nat :=
  if buffer.length = 8 then some (Nat.ofDigits 256 buffer) else none

theorem toArrayLEAux_eq_digits (fuel : Nat) :
    ∀ v : Nat, v ≤ fuel → toArrayLEAux fuel v = Nat.digits 256 v := by
  induction fuel with
  | zero =>
    intro v hv
    have : v = 0 := Nat.le_zero.mp hv
    subst this
    simp [toArrayLEAux]
  | succ n ih =>
    intro v hv
    by_cases h0 : v = 0
    · subst h0; simp [toArrayLEAux]
    · have hpos : 0 < v := Nat.pos_of_ne_zero h0
      have hdiv : v / 256 ≤ n := by
        have : v / 256 < v := Nat.div_lt_self hpos (by norm_num)
        omega
      rw [toArrayLEAux, if_neg h0, ih _ hdiv,
        Nat.digits_def' (by norm_num : 1 < 256) hpos]

/-- The little-endian expansion of `v` to exactly `n` bytes. -/
def leBytes : Nat → Nat → Bytes
  | 0, _ => []
  | n + 1, v => v % 256 :: leBytes n (v / 256)

theorem leBytes_zero (n : Nat) : leBytes n 0 = List.replicate n 0 := by
  induction n with
  | zero => rfl
  | succ k ih => simp [leBytes, ih, List.replicate_succ]

theorem leBytes_length (n v : Nat) : (leBytes n v).length = n := by
  induction n generalizing v with
  | zero => rfl
  | succ k ih => simp [leBytes, ih]

theorem ofDigits_leBytes (n : Nat) :
    ∀ v : Nat, v < 256 ^ n → Nat.ofDigits 256 (leBytes n v) = v := by
  induction n with
  | zero =>
    intro v hv
    interval_cases v
    rfl
  | succ k ih =>
    intro v hv
    have hdiv : v / 256 < 256 ^ k := by
      rw [Nat.div_lt_iff_lt_mul (by norm_num : 0 < 256)]
      calc v < 256 ^ (k + 1) := hv
        _ = 256 ^ k * 256 := by ring
    rw [leBytes, Nat.ofDigits_cons, ih _ hdiv]
    omega

theorem leBytes_get (n : Nat) :
    ∀ (v i : Nat), i < n → (leBytes n v).get? i = some (v / 256 ^ i % 256) := by
  induction n with
  | zero => intro v i hi; omega
  | succ k ih =>
    intro v i hi
    cases i with
    | zero => simp [leBytes]
    | succ j =>
      have hj : j < k := by omega
      rw [leBytes]
      show (leBytes k (v / 256)).get? j = _
      rw [ih (v / 256) j hj, Nat.div_div_eq_div_mul]
      ring_nf

theorem digits_pad_eq_leBytes (n : Nat) :
    ∀ v : Nat, 0 < v → v < 256 ^ n →
      Nat.digits 256 v ++
        List.replicate (n - (Nat.digits 256 v).length) 0 = leBytes n v := by
  induction n with
  | zero => intro v hpos hv; omega
  | succ k ih =>
    intro v hpos hv
    rw [Nat.digits_def' (by norm_num : 1 < 256) hpos]
    have hdiv : v / 256 < 256 ^ k := by
      rw [Nat.div_lt_iff_lt_mul (by norm_num : 0 < 256)]
      calc v < 256 ^ (k + 1) := hv
        _ = 256 ^ k * 256 := by ring
    rw [List.cons_append]
    simp only [List.length_cons, Nat.add_sub_add_right]
    by_cases h0 : v / 256 = 0
    · rw [h0]
      simp only [Nat.digits_zero, List.length_nil, Nat.sub_zero, List.nil_append]
      rw [leBytes, h0, leBytes_zero]
    · have hpos' : 0 < v / 256 := Nat.pos_of_ne_zero h0
      rw [ih (v / 256) hpos' hdiv, leBytes]

theorem digits_len_le_of_lt (n v : Nat) (hv : v < 256 ^ n) (hpos : 0 < v) :
    (Nat.digits 256 v).length ≤ n := by
  have h := digits_pad_eq_leBytes n v hpos hv
  have hlen := congrArg List.length h
  simp only [List.length_append, List.length_replicate, leBytes_length] at hlen
  omega

theorem toBuffer_eq_leBytes (v : Nat) (hv : v < 2 ^ 64) :
    toBuffer v = some (leBytes 8 v) := by
  have h256 : (2 : Nat) ^ 64 = 256 ^ 8 := by norm_num
  by_cases h0 : v = 0
  · subst h0
    rw [leBytes_zero]
    rfl
  · have hpos : 0 < v := Nat.pos_of_ne_zero h0
    have hv' : v < 256 ^ 8 := h256 ▸ hv
    have harr : (toArray v).reverse = Nat.digits 256 v := by
      rw [toArray, if_neg h0, List.reverse_reverse,
        toArrayLEAux_eq_digits v v (le_refl v)]
    have hlen : (Nat.digits 256 v).length ≤ 8 := digits_len_le_of_lt 8 v hv' hpos
    have hpad := digits_pad_eq_leBytes 8 v hpos hv'
    rw [toBuffer]
    simp only [harr]
    rcases Nat.lt_or_ge (Nat.digits 256 v).length 8 with hlt | hge
    · rw [if_neg (by omega), if_pos hlt, hpad]
    · have heq : (Nat.digits 256 v).length = 8 := le_antisymm hlen hge
      rw [if_pos heq, ← hpad, heq]
      simp

theorem toBuffer_eq_none (v : Nat) (hv : 2 ^ 64 ≤ v) : toBuffer v = none := by
  have h256 : (2 : Nat) ^ 64 = 256 ^ 8 := by norm_num
  have h0 : v ≠ 0 := by positivity
  have harr : (toArray v).reverse = Nat.digits 256 v := by
    rw [toArray, if_neg h0, List.reverse_reverse,
      toArrayLEAux_eq_digits v v (le_refl v)]
  have hlong : 8 < (Nat.digits 256 v).length := by
    by_contra hc
    have hle : (Nat.digits 256 v).length ≤ 8 := by omega
    have hlt : v < 256 ^ (Nat.digits 256 v).length :=
      Nat.lt_base_pow_length_digits (by norm_num)
    have : v < 256 ^ 8 :=
      lt_of_lt_of_le hlt (Nat.pow_le_pow_right (by norm_num) hle)
    omega
  rw [toBuffer]
  simp only [harr]
  rw [if_neg (by omega), if_neg (by omega)]

theorem toBuffer_length (v : Nat) (l : Bytes) (h : toBuffer v = some l) :
    l.length = 8 := by
  rw [toBuffer] at h
  split at h
  · rename_i hlen
    rw [Option.some_inj] at h
    rw [← h]; exact hlen
  · split at h
    · rename_i hlt
      rw [Option.some_inj] at h
      rw [← h]
      simp only [List.length_append, List.length_replicate]
      omega
    · exact absurd h (by simp)

theorem fromBuffer_toBuffer (v : Nat) (hv : v < 2 ^ 64) :
    (toBuffer v).bind fromBuffer = some v := by
  have h256 : (2 : Nat) ^ 64 = 256 ^ 8 := by norm_num
  rw [toBuffer_eq_leBytes v hv, Option.some_bind, fromBuffer,
    if_pos (leBytes_length 8 v), ofDigits_leBytes 8 v (h256 ▸ hv)]

end Numberu64

/-- One field descriptor of a buffer-layout struct: `u8` spans one byte,
`publicKey` is the 32-byte blob helper of the source, `uint64` is the
8-byte field of the client layout module. -/
inductive LayoutField
  | u8 (property : String)
  | publicKey (property : String)
  | uint64 (property : String)
deriving DecidableEq, Repr

/-- Fixed byte width of a layout field. -/
def LayoutField.span : LayoutField → Nat
  | u8 _ => 1
  | publicKey _ => 32
  | uint64 _ => 8

/-- Span of a buffer-layout struct: the sum of its field widths, written
contiguously in declaration order with no padding. -/
def structSpan (fields : List LayoutField) : Nat :=
  (fields.map LayoutField.span).sum

/-- Embeds the `tokenSaleAccountDataLayout` declared inside
`TokenSale.initTokenSale`: the persisted sale-state record. -/
def tokenSaleAccountDataLayout : List LayoutField :=
  [.u8 "isInitialized",
   .publicKey "initPubkey",
   .publicKey "saleTokenAccountPubkey",
   .publicKey "poolTokenAccountPubkey",
   .publicKey "whitelistAccountPubkey",
   .publicKey "whitelistProgramPubkey",
   .uint64 "tokenSaleAmount",
   .uint64 "minAmount",
   .uint64 "maxAmount",
   .uint64 "tokenSalePrice",
   .uint64 "tokenSaleTime"]

/-- Embeds the Init instruction data layout of
`TokenSale.initTokenSaleInstruction`. -/
def initSaleDataLayout : List LayoutField :=
  [.u8 "instruction",
   .uint64 "token_sale_amount",
   .uint64 "usd_min_amount",
   .uint64 "usd_max_amount",
   .uint64 "token_sale_price",
   .uint64 "token_sale_time"]

/-- Embeds the Fund instruction data layout of
`TokenSale.fundTokenSaleInstruction`. -/
def fundSaleDataLayout : List LayoutField :=
  [.u8 "instruction",
   .uint64 "token_sale_amount"]

/-- Embeds the Execute instruction data layout of
`TokenSale.executeTokenSaleInstruction`. -/
def executeSaleDataLayout : List LayoutField :=
  [.u8 "instruction",
   .uint64 "usd_amount"]

/-- Embeds TOKEN_PROGRAM_ID of js/client/pubkeys.js. -/
def TOKEN_PROGRAM_ID : PublicKey :=
  .ofBase58 "TokenkegQfeZyiNwAJbNbGKPFXCWuBvf9Ss623VQ5DA"

/-- Embeds ASSOCIATED_TOKEN_ACCOUNT_PROGRAM_ID of js/client/pubkeys.js. -/
def ASSOCIATED_TOKEN_ACCOUNT_PROGRAM_ID : PublicKey :=
  .ofBase58 "ATokenGPvbdGVxr1b2hvZbsiqW5xWH25efTNsLJA8knL"

/-- Embeds TOKEN_SALE_PROGRAM_ID of js/client/pubkeys.js, the module-level
constant used by `executeTokenSale` for the derived-authority address. -/
def TOKEN_SALE_PROGRAM_ID : PublicKey :=
  .ofBase58 "FGsPzi6df2SL1ycYaiXB5bP8WguC9iWVhdoChn3TVjLN"

/-- Embeds TOKEN_WHITELIST_PROGRAM_ID of js/client/pubkeys.js. -/
def TOKEN_WHITELIST_PROGRAM_ID : PublicKey :=
  .ofBase58 "4ikowHMssMavQeDUaDVGPwsBcNMnU1nkzAJikMFG5mfv"

/-- Embeds SYSVAR_RENT_PUBKEY of the external web3 library. -/
def SYSVAR_RENT_PUBKEY : PublicKey :=
  .ofBase58 "SysvarRent111111111111111111111111111111111"

/-- Byte content of a literal string, as produced by `Buffer.from` on the
ASCII seed strings of the source. -/
def stringBytes (s : String) : Bytes :=
  s.toList.map Char.toNat

/-- Models `PublicKey.findProgramAddress` of the external web3 library as
the symbolic deterministic derivation from the seed list and program id
(the library performs a sha256-based bump search; only determinism and
dependence on exactly these inputs matter to the client). The source uses
the first component of the returned pair. -/
def findProgramAddress (seeds : List Bytes) (programId : PublicKey) :
    PublicKey :=
  .derived seeds programId

/-- The price transform of `initTokenSaleInstruction`: the source computes
`new Numberu64(price*100)`, multiplying the price by 100 and truncating the
result to an integer (the BN constructor truncates a fractional number
toward zero; prices are non-negative, so this is the floor).  The price is
modelled as an exact rational; at the reference input 0.1 the binary
floating point product 10.000000000000002 also truncates to 10. -/
def encodePrice (price : Rat) : Nat :=
  Int.toNat (Int.floor (price * 100))

/-- Embeds `TokenSale.initTokenSaleInstruction`: opcode 0, the five 8-byte
argument fields in declaration order, and the fixed account-reference
list. -/
def initTokenSaleInstruction (tokenSaleProgramId : PublicKey)
    (amount minAmount maxAmount : Nat) (price : Rat) (timestamp : Nat)
    (poolTransferAuthority tokenSaleAccount poolDestination
     saleTokenAccount tokenProgramId tokenWhitelistProgramId
     tokenWhitelistMap : PublicKey) : Option TransactionInstruction := do
  let amountB ← Numberu64.toBuffer amount
  let minB ← Numberu64.toBuffer minAmount
  let maxB ← Numberu64.toBuffer maxAmount
  let priceB ← Numberu64.toBuffer (encodePrice price)
  let timeB ← Numberu64.toBuffer timestamp
  some
    { keys :=
        [{ pubkey := poolTransferAuthority, isSigner := true, isWritable := false },
         { pubkey := tokenSaleAccount, isSigner := false, isWritable := true },
         { pubkey := poolDestination, isSigner := false, isWritable := false },
         { pubkey := saleTokenAccount, isSigner := false, isWritable := true },
         { pubkey := tokenWhitelistMap, isSigner := false, isWritable := false },
         { pubkey := tokenProgramId, isSigner := false, isWritable := false },
         { pubkey := tokenWhitelistProgramId, isSigner := false, isWritable := false },
         { pubkey := SYSVAR_RENT_PUBKEY, isSigner := false, isWritable := false }],
      programId := tokenSaleProgramId,
      data := 0 :: (amountB ++ minB ++ maxB ++ priceB ++ timeB) }

/-- Embeds `TokenSale.fundTokenSaleInstruction`: opcode 1, one 8-byte
amount field, and the fixed account-reference list. -/
def fundTokenSaleInstruction (tokenSaleProgramId : PublicKey) (amount : Nat)
    (poolTransferAuthority tokenSaleAccount poolAccount saleTokenAccount
     tokenProgramId : PublicKey) : Option TransactionInstruction := do
  let amountB ← Numberu64.toBuffer amount
  some
    { keys :=
        [{ pubkey := poolTransferAuthority, isSigner := true, isWritable := false },
         { pubkey := tokenSaleAccount, isSigner := false, isWritable := false },
         { pubkey := poolAccount, isSigner := false, isWritable := true },
         { pubkey := saleTokenAccount, isSigner := false, isWritable := true },
         { pubkey := tokenProgramId, isSigner := false, isWritable := false }],
      programId := tokenSaleProgramId,
      data := 1 :: amountB }

/-- Embeds `TokenSale.executeTokenSaleInstruction`: opcode 2, one 8-byte
usd-amount field, and the fixed account-reference list. -/
def executeTokenSaleInstruction (tokenSaleProgramId : PublicKey)
    (amount : Nat)
    (userAccount tokenSaleAccount userSource userDestination
     saleTokenAccount poolDestination tokenProgramId salePDA
     tokenWhitelistProgramId tokenWhitelistMap
     tokenWhitelistAccount : PublicKey) : Option TransactionInstruction := do
  let amountB ← Numberu64.toBuffer amount
  some
    { keys :=
        [{ pubkey := userAccount, isSigner := true, isWritable := false },
         { pubkey := tokenSaleAccount, isSigner := false, isWritable := false },
         { pubkey := saleTokenAccount, isSigner := false, isWritable := true },
         { pubkey := userDestination, isSigner := false, isWritable := true },
         { pubkey := userSource, isSigner := false, isWritable := true },
         { pubkey := poolDestination, isSigner := false, isWritable := true },
         { pubkey := salePDA, isSigner := false, isWritable := false },
         { pubkey := tokenProgramId, isSigner := false, isWritable := false },
         { pubkey := tokenWhitelistMap, isSigner := false, isWritable := true },
         { pubkey := tokenWhitelistAccount, isSigner := false, isWritable := true },
         { pubkey := tokenWhitelistProgramId, isSigner := false, isWritable := false }],
      programId := tokenSaleProgramId,
      data := 2 :: amountB }


/-- Parameters of the `SystemProgram.createAccount` instruction built in
`initTokenSale`; the system program is external, so the instruction is kept
symbolic rather than serialized. -/
structure CreateAccountParams where
  space : Nat
  lamports : Nat
  fromPubkey : PublicKey
  newAccountPubkey : PublicKey
  programId : PublicKey
deriving DecidableEq, Repr

/-- An instruction inside a transaction: either the external system
program's create-account instruction or a token-sale program instruction. -/
inductive Instr
  | system (params : CreateAccountParams)
  | program (ix : TransactionInstruction)
deriving DecidableEq, Repr

/-- A transaction as assembled by the client: its instruction list and its
signers in the order they are passed to `sendAndConfirmTransaction`.
Modelled from the spec: util/send-and-confirm-transaction.js is not under
src/; per section 4.5 the transaction is signed by all listed signers, and
per the source docstring of `payer` the first signer pays the fee. -/
structure Transaction where
  instructions : List Instr
  signers : List Account
deriving DecidableEq, Repr

/-- The account that pays the transaction fee: the first signer. -/
def Transaction.feePayer (tx : Transaction) : Option PublicKey :=
  tx.signers.head?.map Account.publicKey

/-- One observable call to the connection (the external ledger client). -/
inductive NetworkCall
  | getMinimumBalanceForRentExemption (size : Nat)
  | sendTransaction (tx : Transaction)
deriving DecidableEq, Repr

/-- The connection, reduced to the response it supplies to the only query
the embedded operations make before submitting. -/
structure Connection where
  minimumBalanceForRentExemption : Nat → Nat

/-- Embeds the `TokenSale` class fields (the connection is passed
explicitly to the operations that use it). -/
structure TokenSale where
  payer : Account
  mintUSDTPubkey : PublicKey
  mintSOLRPubkey : PublicKey
  tokenSaleAccount : Account
  tokenWhitelistMap : PublicKey
  tokenSaleProgramId : PublicKey
  tokenWhitelistProgramId : PublicKey
  tokenProgramId : PublicKey
  associatedProgramId : PublicKey
deriving DecidableEq, Repr

/-- Embeds `TokenSale.createTokenSale`: constructs the client object with a
freshly generated keypair (`new Account()`, modelled by the `freshAccount`
argument standing for the generator's output) as the sale-state account.
The returned trace is the list of network calls performed: none. -/
def createTokenSale (payer : Account)
    (mintUSDTPubkey mintSOLRPubkey tokenWhitelistMap tokenSaleProgramId
     tokenWhitelistProgramId tokenProgramId associatedProgramId : PublicKey)
    (freshAccount : Account) : List NetworkCall × TokenSale :=
  ([],
   { payer := payer,
     mintUSDTPubkey := mintUSDTPubkey,
     mintSOLRPubkey := mintSOLRPubkey,
     tokenSaleAccount := freshAccount,
     tokenWhitelistMap := tokenWhitelistMap,
     tokenSaleProgramId := tokenSaleProgramId,
     tokenWhitelistProgramId := tokenWhitelistProgramId,
     tokenProgramId := tokenProgramId,
     associatedProgramId := associatedProgramId })

/-- Embeds `TokenSale.initTokenSale`: queries the rent-exempt balance for
the sale-state layout span, builds the companion create-account instruction
funded by the pool transfer authority, prepends it to the Init instruction
and submits one transaction signed by payer, authority and the sale-state
keypair. -/
def TokenSale.initTokenSale (ts : TokenSale) (conn : Connection)
    (poolTransferAuthority : Account)
    (poolDestination saleTokenAccount : PublicKey)
    (amount minAmount maxAmount : Nat) (price : Rat) (timestamp : Nat) :
    Option (List NetworkCall × Transaction) := do
  let space := structSpan tokenSaleAccountDataLayout
  let lamports := conn.minimumBalanceForRentExemption space
  let createSaleAccountInstruction : CreateAccountParams :=
    { space := space,
      lamports := lamports,
      fromPubkey := poolTransferAuthority.publicKey,
      newAccountPubkey := ts.tokenSaleAccount.publicKey,
      programId := ts.tokenSaleProgramId }
  let initIx ← initTokenSaleInstruction ts.tokenSaleProgramId
    amount minAmount maxAmount price timestamp
    poolTransferAuthority.publicKey ts.tokenSaleAccount.publicKey
    poolDestination saleTokenAccount ts.tokenProgramId
    ts.tokenWhitelistProgramId ts.tokenWhitelistMap
  let tx : Transaction :=
    { instructions := [.system createSaleAccountInstruction, .program initIx],
      signers := [ts.payer, poolTransferAuthority, ts.tokenSaleAccount] }
  some ([.getMinimumBalanceForRentExemption space, .sendTransaction tx], tx)

/-- Embeds `TokenSale.fundTokenSale`: builds the Fund instruction and
submits one transaction signed by payer and authority.  No phase state is
consulted; there is none in the class. -/
def TokenSale.fundTokenSale (ts : TokenSale) (poolTransferAuthority : Account)
    (poolAccount saleTokenAccount : PublicKey) (amount : Nat) :
    Option (List NetworkCall × Transaction) := do
  let ix ← fundTokenSaleInstruction ts.tokenSaleProgramId amount
    poolTransferAuthority.publicKey ts.tokenSaleAccount.publicKey
    poolAccount saleTokenAccount ts.tokenProgramId
  let tx : Transaction :=
    { instructions := [.program ix],
      signers := [ts.payer, poolTransferAuthority] }
  some ([.sendTransaction tx], tx)

/-- Embeds `TokenSale.executeTokenSale`: derives the sale authority address
from the single seed solrsale under the module-level constant
TOKEN_SALE_PROGRAM_ID, builds the Execute instruction and submits one
transaction signed by the user.  No phase state is consulted. -/
def TokenSale.executeTokenSale (ts : TokenSale) (userAccount : Account)
    (userSource userDestination saleTokenAccount poolDestination
     tokenWhitelistAccount : PublicKey) (amount : Nat) :
    Option (List NetworkCall × Transaction) := do
  let saleProgramDerivedAddress :=
    findProgramAddress [stringBytes "solrsale"] TOKEN_SALE_PROGRAM_ID
  let ix ← executeTokenSaleInstruction ts.tokenSaleProgramId amount
    userAccount.publicKey ts.tokenSaleAccount.publicKey
    userSource userDestination saleTokenAccount poolDestination
    ts.tokenProgramId saleProgramDerivedAddress
    ts.tokenWhitelistProgramId ts.tokenWhitelistMap tokenWhitelistAccount
  let tx : Transaction :=
    { instructions := [.program ix], signers := [userAccount] }
  some ([.sendTransaction tx], tx)

/-- The decoded persisted sale-state record. -/
structure SaleState where
  isInitialized : Nat
  initPubkey : Bytes
  saleTokenAccountPubkey : Bytes
  poolTokenAccountPubkey : Bytes
  whitelistAccountPubkey : Bytes
  whitelistProgramPubkey : Bytes
  tokenSaleAmount : Nat
  minAmount : Nat
  maxAmount : Nat
  tokenSalePrice : Nat
  tokenSaleTime : Nat
deriving DecidableEq, Repr

/-- Modelled from the spec: the sale-state decoder (the
TOKEN_SALE_ACCOUNT_DATA_LAYOUT export that js/cli/token-sale-test.js
imports for decoding is not under src/; src/ only declares the identical
layout inside `initTokenSale`).  Per sections 3 and 4.2, fields are read at
cumulative offsets of the declared layout and a buffer whose length differs
from the layout span is a decode error, not a silent truncation. -/
def decodeSaleState (b : Bytes) : Option SaleState :=
  if b.length = structSpan tokenSaleAccountDataLayout then
    some
      { isInitialized := b.headD 0,
        initPubkey := (b.drop 1).take 32,
        saleTokenAccountPubkey := (b.drop 33).take 32,
        poolTokenAccountPubkey := (b.drop 65).take 32,
        whitelistAccountPubkey := (b.drop 97).take 32,
        whitelistProgramPubkey := (b.drop 129).take 32,
        tokenSaleAmount := Nat.ofDigits 256 ((b.drop 161).take 8),
        minAmount := Nat.ofDigits 256 ((b.drop 169).take 8),
        maxAmount := Nat.ofDigits 256 ((b.drop 177).take 8),
        tokenSalePrice := Nat.ofDigits 256 ((b.drop 185).take 8),
        tokenSaleTime := Nat.ofDigits 256 ((b.drop 193).take 8) }
  else none

theorem initTokenSaleInstruction_eq (pid : PublicKey) (a mn mx : Nat)
    (p : Rat) (t : Nat) (k1 k2 k3 k4 k5 k6 k7 : PublicKey)
    (ha : a < 2 ^ 64) (hmn : mn < 2 ^ 64) (hmx : mx < 2 ^ 64)
    (hp : encodePrice p < 2 ^ 64) (ht : t < 2 ^ 64) :
    initTokenSaleInstruction pid a mn mx p t k1 k2 k3 k4 k5 k6 k7 =
      some
        { keys :=
            [{ pubkey := k1, isSigner := true, isWritable := false },
             { pubkey := k2, isSigner := false, isWritable := true },
             { pubkey := k3, isSigner := false, isWritable := false },
             { pubkey := k4, isSigner := false, isWritable := true },
             { pubkey := k7, isSigner := false, isWritable := false },
             { pubkey := k5, isSigner := false, isWritable := false },
             { pubkey := k6, isSigner := false, isWritable := false },
             { pubkey := SYSVAR_RENT_PUBKEY, isSigner := false, isWritable := false }],
          programId := pid,
          data := 0 ::
            (Numberu64.leBytes 8 a ++ Numberu64.leBytes 8 mn ++
             Numberu64.leBytes 8 mx ++ Numberu64.leBytes 8 (encodePrice p) ++
             Numberu64.leBytes 8 t) } := by
  rw [initTokenSaleInstruction, Numberu64.toBuffer_eq_leBytes a ha,
    Numberu64.toBuffer_eq_leBytes mn hmn, Numberu64.toBuffer_eq_leBytes mx hmx,
    Numberu64.toBuffer_eq_leBytes _ hp, Numberu64.toBuffer_eq_leBytes t ht]
  rfl

theorem fundTokenSaleInstruction_eq (pid : PublicKey) (a : Nat)
    (k1 k2 k3 k4 k5 : PublicKey) (ha : a < 2 ^ 64) :
    fundTokenSaleInstruction pid a k1 k2 k3 k4 k5 =
      some
        { keys :=
            [{ pubkey := k1, isSigner := true, isWritable := false },
             { pubkey := k2, isSigner := false, isWritable := false },
             { pubkey := k3, isSigner := false, isWritable := true },
             { pubkey := k4, isSigner := false, isWritable := true },
             { pubkey := k5, isSigner := false, isWritable := false }],
          programId := pid,
          data := 1 :: Numberu64.leBytes 8 a } := by
  rw [fundTokenSaleInstruction, Numberu64.toBuffer_eq_leBytes a ha]
  rfl

theorem executeTokenSaleInstruction_eq (pid : PublicKey) (a : Nat)
    (k1 k2 k3 k4 k5 k6 k7 k8 k9 k10 k11 : PublicKey) (ha : a < 2 ^ 64) :
    executeTokenSaleInstruction pid a k1 k2 k3 k4 k5 k6 k7 k8 k9 k10 k11 =
      some
        { keys :=
            [{ pubkey := k1, isSigner := true, isWritable := false },
             { pubkey := k2, isSigner := false, isWritable := false },
             { pubkey := k5, isSigner := false, isWritable := true },
             { pubkey := k4, isSigner := false, isWritable := true },
             { pubkey := k3, isSigner := false, isWritable := true },
             { pubkey := k6, isSigner := false, isWritable := true },
             { pubkey := k8, isSigner := false, isWritable := false },
             { pubkey := k7, isSigner := false, isWritable := false },
             { pubkey := k10, isSigner := false, isWritable := true },
             { pubkey := k11, isSigner := false, isWritable := true },
             { pubkey := k9, isSigner := false, isWritable := false }],
          programId := pid,
          data := 2 :: Numberu64.leBytes 8 a } := by
  rw [executeTokenSaleInstruction, Numberu64.toBuffer_eq_leBytes a ha]
  rfl

/-- Claim C5: for every unsigned 64-bit value v, feeding the buffer
produced by `Numberu64.toBuffer` back through `Numberu64.fromBuffer`
returns v: the native to buffer to native round trip of the numeric codec
is lossless on the whole range from 0 to 2 to the 64 minus 1. -/
theorem c5_roundtrip_codec (v : Nat) (hv : v < 2 ^ 64) :
    (Numberu64.toBuffer v).bind Numberu64.fromBuffer = some v :=
  Numberu64.fromBuffer_toBuffer v hv

theorem c5_roundtrip_codec_witness :
    (Numberu64.toBuffer 123456789123456789).bind Numberu64.fromBuffer =
      some 123456789123456789 :=
  c5_roundtrip_codec 123456789123456789 (by norm_num)

/-- Claim C7: for every value v below 2 to the 64, `Numberu64.toBuffer`
returns a buffer of exactly 8 bytes holding v little-endian, zero-padded on
the high side (byte i equals v divided by 256 to the i, modulo 256), and
for every v at least 2 to the 64 it fails instead of returning a buffer. -/
theorem c7_toBuffer_8_bytes_or_fatal (v : Nat) :
    (v < 2 ^ 64 →
      ∃ l : Bytes, Numberu64.toBuffer v = some l ∧ l.length = 8 ∧
        ∀ i : Nat, i < 8 → l.get? i = some (v / 256 ^ i % 256)) ∧
    (2 ^ 64 ≤ v → Numberu64.toBuffer v = none) := by
  constructor
  · intro hv
    exact ⟨Numberu64.leBytes 8 v, Numberu64.toBuffer_eq_leBytes v hv,
      Numberu64.leBytes_length 8 v, fun i hi => Numberu64.leBytes_get 8 v i hi⟩
  · intro hv
    exact Numberu64.toBuffer_eq_none v hv

theorem c7_toBuffer_witness :
    Numberu64.toBuffer 258 = some [2, 1, 0, 0, 0, 0, 0, 0] ∧
    Numberu64.toBuffer (2 ^ 64) = none := by
  constructor
  · obtain ⟨l, hl, -, -⟩ :=
      (c7_toBuffer_8_bytes_or_fatal 258).1 (by norm_num)
    rw [hl]
    rw [show l = Numberu64.leBytes 8 258 by
      have := Numberu64.toBuffer_eq_leBytes 258 (by norm_num)
      rw [this] at hl
      exact (Option.some_inj.mp hl).symm]
    rfl
  · exact (c7_toBuffer_8_bytes_or_fatal (2 ^ 64)).2 (le_refl _)

/-- Claim C3: each instruction builder emits its account-reference list in
exactly the order and with exactly the signer and writable flags of section
4.4: Init emits pool-authority (signer), sale-state (writable),
pool-destination, sale-token-account (writable), whitelist-map,
token-program, whitelist-program, rent-sysvar; Fund emits pool-authority
(signer), sale-state, pool-token-account (writable), sale-token-account
(writable), token-program; Execute emits user (signer), sale-state,
sale-token-account (writable), user-destination (writable), user-source
(writable), pool-destination (writable), derived-authority, token-program,
whitelist-map (writable), whitelist-account (writable), whitelist-program. -/
theorem c3_account_reference_lists
    (pid poolAuth saleState poolDest saleTok tokProg wlProg wlMap : PublicKey)
    (user userSrc userDst poolDest2 saleTok2 salePDA wlAcct : PublicKey)
    (a mn mx : Nat) (p : Rat) (t fa ea : Nat)
    (ha : a < 2 ^ 64) (hmn : mn < 2 ^ 64) (hmx : mx < 2 ^ 64)
    (hp : encodePrice p < 2 ^ 64) (ht : t < 2 ^ 64)
    (hfa : fa < 2 ^ 64) (hea : ea < 2 ^ 64) :
    ((initTokenSaleInstruction pid a mn mx p t poolAuth saleState poolDest
        saleTok tokProg wlProg wlMap).map TransactionInstruction.keys =
      some
        [{ pubkey := poolAuth, isSigner := true, isWritable := false },
         { pubkey := saleState, isSigner := false, isWritable := true },
         { pubkey := poolDest, isSigner := false, isWritable := false },
         { pubkey := saleTok, isSigner := false, isWritable := true },
         { pubkey := wlMap, isSigner := false, isWritable := false },
         { pubkey := tokProg, isSigner := false, isWritable := false },
         { pubkey := wlProg, isSigner := false, isWritable := false },
         { pubkey := SYSVAR_RENT_PUBKEY, isSigner := false, isWritable := false }]) ∧
    ((fundTokenSaleInstruction pid fa poolAuth saleState poolDest saleTok
        tokProg).map TransactionInstruction.keys =
      some
        [{ pubkey := poolAuth, isSigner := true, isWritable := false },
         { pubkey := saleState, isSigner := false, isWritable := false },
         { pubkey := poolDest, isSigner := false, isWritable := true },
         { pubkey := saleTok, isSigner := false, isWritable := true },
         { pubkey := tokProg, isSigner := false, isWritable := false }]) ∧
    ((executeTokenSaleInstruction pid ea user saleState userSrc userDst
        saleTok2 poolDest2 tokProg salePDA wlProg wlMap wlAcct).map
        TransactionInstruction.keys =
      some
        [{ pubkey := user, isSigner := true, isWritable := false },
         { pubkey := saleState, isSigner := false, isWritable := false },
         { pubkey := saleTok2, isSigner := false, isWritable := true },
         { pubkey := userDst, isSigner := false, isWritable := true },
         { pubkey := userSrc, isSigner := false, isWritable := true },
         { pubkey := poolDest2, isSigner := false, isWritable := true },
         { pubkey := salePDA, isSigner := false, isWritable := false },
         { pubkey := tokProg, isSigner := false, isWritable := false },
         { pubkey := wlMap, isSigner := false, isWritable := true },
         { pubkey := wlAcct, isSigner := false, isWritable := true },
         { pubkey := wlProg, isSigner := false, isWritable := false }]) := by
  refine ⟨?_, ?_, ?_⟩
  · rw [initTokenSaleInstruction_eq pid a mn mx p t _ _ _ _ _ _ _
      ha hmn hmx hp ht]
    rfl
  · rw [fundTokenSaleInstruction_eq pid fa _ _ _ _ _ hfa]
    rfl
  · rw [executeTokenSaleInstruction_eq pid ea _ _ _ _ _ _ _ _ _ _ _ hea]
    rfl

theorem c3_account_reference_lists_witness :
    ((initTokenSaleInstruction TOKEN_SALE_PROGRAM_ID 5 1 2 2 7
        (.ofBase58 "auth") (.ofBase58 "state") (.ofBase58 "dest")
        (.ofBase58 "stok") TOKEN_PROGRAM_ID TOKEN_WHITELIST_PROGRAM_ID
        (.ofBase58 "map")).map TransactionInstruction.keys =
      some
        [{ pubkey := .ofBase58 "auth", isSigner := true, isWritable := false },
         { pubkey := .ofBase58 "state", isSigner := false, isWritable := true },
         { pubkey := .ofBase58 "dest", isSigner := false, isWritable := false },
         { pubkey := .ofBase58 "stok", isSigner := false, isWritable := true },
         { pubkey := .ofBase58 "map", isSigner := false, isWritable := false },
         { pubkey := TOKEN_PROGRAM_ID, isSigner := false, isWritable := false },
         { pubkey := TOKEN_WHITELIST_PROGRAM_ID, isSigner := false, isWritable := false },
         { pubkey := SYSVAR_RENT_PUBKEY, isSigner := false, isWritable := false }]) ∧
    ((fundTokenSaleInstruction TOKEN_SALE_PROGRAM_ID 3 (.ofBase58 "auth")
        (.ofBase58 "state") (.ofBase58 "dest") (.ofBase58 "stok")
        TOKEN_PROGRAM_ID).map TransactionInstruction.keys =
      some
        [{ pubkey := .ofBase58 "auth", isSigner := true, isWritable := false },
         { pubkey := .ofBase58 "state", isSigner := false, isWritable := false },
         { pubkey := .ofBase58 "dest", isSigner := false, isWritable := true },
         { pubkey := .ofBase58 "stok", isSigner := false, isWritable := true },
         { pubkey := TOKEN_PROGRAM_ID, isSigner := false, isWritable := false }]) ∧
    ((executeTokenSaleInstruction TOKEN_SALE_PROGRAM_ID 4 (.ofBase58 "user")
        (.ofBase58 "state") (.ofBase58 "src") (.ofBase58 "dst")
        (.ofBase58 "stok") (.ofBase58 "pdest") TOKEN_PROGRAM_ID
        (.ofBase58 "pda") TOKEN_WHITELIST_PROGRAM_ID (.ofBase58 "map")
        (.ofBase58 "wacct")).map TransactionInstruction.keys =
      some
        [{ pubkey := .ofBase58 "user", isSigner := true, isWritable := false },
         { pubkey := .ofBase58 "state", isSigner := false, isWritable := false },
         { pubkey := .ofBase58 "stok", isSigner := false, isWritable := true },
         { pubkey := .ofBase58 "dst", isSigner := false, isWritable := true },
         { pubkey := .ofBase58 "src", isSigner := false, isWritable := true },
         { pubkey := .ofBase58 "pdest", isSigner := false, isWritable := true },
         { pubkey := .ofBase58 "pda", isSigner := false, isWritable := false },
         { pubkey := TOKEN_PROGRAM_ID, isSigner := false, isWritable := false },
         { pubkey := .ofBase58 "map", isSigner := false, isWritable := true },
         { pubkey := .ofBase58 "wacct", isSigner := false, isWritable := true },
         { pubkey := TOKEN_WHITELIST_PROGRAM_ID, isSigner := false, isWritable := false }]) :=
  c3_account_reference_lists TOKEN_SALE_PROGRAM_ID (.ofBase58 "auth")
    (.ofBase58 "state") (.ofBase58 "dest") (.ofBase58 "stok")
    TOKEN_PROGRAM_ID TOKEN_WHITELIST_PROGRAM_ID (.ofBase58 "map")
    (.ofBase58 "user") (.ofBase58 "src") (.ofBase58 "dst")
    (.ofBase58 "pdest") (.ofBase58 "stok") (.ofBase58 "pda")
    (.ofBase58 "wacct") 5 1 2 2 7 3 4
    (by norm_num) (by norm_num) (by norm_num)
    (by norm_num [encodePrice]) (by norm_num) (by norm_num) (by norm_num)

/-- Claim C4: every built instruction's data buffer is the opcode byte (0
for Init, 1 for Fund, 2 for Execute) followed by the 8-byte little-endian
u64 argument fields in declaration order with no padding, so it is exactly
41 bytes (the Init layout span) for Init and exactly 9 bytes (the Fund and
Execute layout spans) for Fund and for Execute. -/
theorem c4_data_buffer_layouts
    (pid k1 k2 k3 k4 k5 k6 k7 : PublicKey)
    (e1 e2 e3 e4 e5 e6 e7 e8 e9 e10 e11 : PublicKey)
    (a mn mx : Nat) (p : Rat) (t fa ea : Nat)
    (ha : a < 2 ^ 64) (hmn : mn < 2 ^ 64) (hmx : mx < 2 ^ 64)
    (hp : encodePrice p < 2 ^ 64) (ht : t < 2 ^ 64)
    (hfa : fa < 2 ^ 64) (hea : ea < 2 ^ 64) :
    structSpan initSaleDataLayout = 41 ∧
    structSpan fundSaleDataLayout = 9 ∧
    structSpan executeSaleDataLayout = 9 ∧
    ((initTokenSaleInstruction pid a mn mx p t k1 k2 k3 k4 k5 k6 k7).map
        TransactionInstruction.data =
      some (0 ::
        (Numberu64.leBytes 8 a ++ Numberu64.leBytes 8 mn ++
         Numberu64.leBytes 8 mx ++ Numberu64.leBytes 8 (encodePrice p) ++
         Numberu64.leBytes 8 t))) ∧
    ((initTokenSaleInstruction pid a mn mx p t k1 k2 k3 k4 k5 k6 k7).map
        (fun ix => ix.data.length) = some 41) ∧
    ((fundTokenSaleInstruction pid fa e1 e2 e3 e4 e5).map
        TransactionInstruction.data =
      some (1 :: Numberu64.leBytes 8 fa)) ∧
    ((fundTokenSaleInstruction pid fa e1 e2 e3 e4 e5).map
        (fun ix => ix.data.length) = some 9) ∧
    ((executeTokenSaleInstruction pid ea e1 e2 e3 e4 e5 e6 e7 e8 e9 e10
        e11).map TransactionInstruction.data =
      some (2 :: Numberu64.leBytes 8 ea)) ∧
    ((executeTokenSaleInstruction pid ea e1 e2 e3 e4 e5 e6 e7 e8 e9 e10
        e11).map (fun ix => ix.data.length) = some 9) := by
  rw [initTokenSaleInstruction_eq pid a mn mx p t _ _ _ _ _ _ _
      ha hmn hmx hp ht,
    fundTokenSaleInstruction_eq pid fa _ _ _ _ _ hfa,
    executeTokenSaleInstruction_eq pid ea _ _ _ _ _ _ _ _ _ _ _ hea]
  simp only [Option.map_some', List.length_cons, List.length_append,
    Numberu64.leBytes_length]
  norm_num [structSpan, initSaleDataLayout, fundSaleDataLayout,
    executeSaleDataLayout, LayoutField.span]

theorem c4_data_buffer_layouts_witness :
    structSpan initSaleDataLayout = 41 ∧
    structSpan fundSaleDataLayout = 9 ∧
    structSpan executeSaleDataLayout = 9 ∧
    ((initTokenSaleInstruction TOKEN_SALE_PROGRAM_ID 5 1 2 2 7
        (.ofBase58 "a") (.ofBase58 "b") (.ofBase58 "c") (.ofBase58 "d")
        (.ofBase58 "e") (.ofBase58 "f") (.ofBase58 "g")).map
        TransactionInstruction.data =
      some (0 ::
        (Numberu64.leBytes 8 5 ++ Numberu64.leBytes 8 1 ++
         Numberu64.leBytes 8 2 ++ Numberu64.leBytes 8 (encodePrice 2) ++
         Numberu64.leBytes 8 7))) ∧
    ((initTokenSaleInstruction TOKEN_SALE_PROGRAM_ID 5 1 2 2 7
        (.ofBase58 "a") (.ofBase58 "b") (.ofBase58 "c") (.ofBase58 "d")
        (.ofBase58 "e") (.ofBase58 "f") (.ofBase58 "g")).map
        (fun ix => ix.data.length) = some 41) ∧
    ((fundTokenSaleInstruction TOKEN_SALE_PROGRAM_ID 3 (.ofBase58 "a")
        (.ofBase58 "b") (.ofBase58 "c") (.ofBase58 "d")
        (.ofBase58 "e")).map TransactionInstruction.data =
      some (1 :: Numberu64.leBytes 8 3)) ∧
    ((fundTokenSaleInstruction TOKEN_SALE_PROGRAM_ID 3 (.ofBase58 "a")
        (.ofBase58 "b") (.ofBase58 "c") (.ofBase58 "d")
        (.ofBase58 "e")).map (fun ix => ix.data.length) = some 9) ∧
    ((executeTokenSaleInstruction TOKEN_SALE_PROGRAM_ID 4 (.ofBase58 "a")
        (.ofBase58 "b") (.ofBase58 "c") (.ofBase58 "d") (.ofBase58 "e")
        (.ofBase58 "f") (.ofBase58 "g") (.ofBase58 "h") (.ofBase58 "i")
        (.ofBase58 "j") (.ofBase58 "k")).map
        TransactionInstruction.data =
      some (2 :: Numberu64.leBytes 8 4)) ∧
    ((executeTokenSaleInstruction TOKEN_SALE_PROGRAM_ID 4 (.ofBase58 "a")
        (.ofBase58 "b") (.ofBase58 "c") (.ofBase58 "d") (.ofBase58 "e")
        (.ofBase58 "f") (.ofBase58 "g") (.ofBase58 "h") (.ofBase58 "i")
        (.ofBase58 "j") (.ofBase58 "k")).map
        (fun ix => ix.data.length) = some 9) :=
  c4_data_buffer_layouts TOKEN_SALE_PROGRAM_ID (.ofBase58 "a")
    (.ofBase58 "b") (.ofBase58 "c") (.ofBase58 "d") (.ofBase58 "e")
    (.ofBase58 "f") (.ofBase58 "g") (.ofBase58 "a") (.ofBase58 "b")
    (.ofBase58 "c") (.ofBase58 "d") (.ofBase58 "e") (.ofBase58 "f")
    (.ofBase58 "g") (.ofBase58 "h") (.ofBase58 "i") (.ofBase58 "j")
    (.ofBase58 "k") 5 1 2 2 7 3 4
    (by norm_num) (by norm_num) (by norm_num)
    (by norm_num [encodePrice]) (by norm_num) (by norm_num) (by norm_num)

theorem fundTokenSale_eq (ts : TokenSale) (auth : Account)
    (pa sa : PublicKey) (fa : Nat) (hfa : fa < 2 ^ 64) :
    ts.fundTokenSale auth pa sa fa =
      some
        ([.sendTransaction
            { instructions :=
                [.program
                  { keys :=
                      [{ pubkey := auth.publicKey, isSigner := true, isWritable := false },
                       { pubkey := ts.tokenSaleAccount.publicKey, isSigner := false, isWritable := false },
                       { pubkey := pa, isSigner := false, isWritable := true },
                       { pubkey := sa, isSigner := false, isWritable := true },
                       { pubkey := ts.tokenProgramId, isSigner := false, isWritable := false }],
                    programId := ts.tokenSaleProgramId,
                    data := 1 :: Numberu64.leBytes 8 fa }],
              signers := [ts.payer, auth] }],
         { instructions :=
             [.program
               { keys :=
                   [{ pubkey := auth.publicKey, isSigner := true, isWritable := false },
                    { pubkey := ts.tokenSaleAccount.publicKey, isSigner := false, isWritable := false },
                    { pubkey := pa, isSigner := false, isWritable := true },
                    { pubkey := sa, isSigner := false, isWritable := true },
                    { pubkey := ts.tokenProgramId, isSigner := false, isWritable := false }],
                 programId := ts.tokenSaleProgramId,
                 data := 1 :: Numberu64.leBytes 8 fa }],
           signers := [ts.payer, auth] }) := by
  rw [TokenSale.fundTokenSale, fundTokenSaleInstruction_eq _ _ _ _ _ _ _ hfa]
  rfl

theorem executeTokenSale_eq (ts : TokenSale) (user : Account)
    (us ud sta pd wa : PublicKey) (ea : Nat) (hea : ea < 2 ^ 64) :
    ts.executeTokenSale user us ud sta pd wa ea =
      some
        ([.sendTransaction
            { instructions :=
                [.program
                  { keys :=
                      [{ pubkey := user.publicKey, isSigner := true, isWritable := false },
                       { pubkey := ts.tokenSaleAccount.publicKey, isSigner := false, isWritable := false },
                       { pubkey := sta, isSigner := false, isWritable := true },
                       { pubkey := ud, isSigner := false, isWritable := true },
                       { pubkey := us, isSigner := false, isWritable := true },
                       { pubkey := pd, isSigner := false, isWritable := true },
                       { pubkey := .derived [stringBytes "solrsale"] TOKEN_SALE_PROGRAM_ID, isSigner := false, isWritable := false },
                       { pubkey := ts.tokenProgramId, isSigner := false, isWritable := false },
                       { pubkey := ts.tokenWhitelistMap, isSigner := false, isWritable := true },
                       { pubkey := wa, isSigner := false, isWritable := true },
                       { pubkey := ts.tokenWhitelistProgramId, isSigner := false, isWritable := false }],
                    programId := ts.tokenSaleProgramId,
                    data := 2 :: Numberu64.leBytes 8 ea }],
              signers := [user] }],
         { instructions :=
             [.program
               { keys :=
                   [{ pubkey := user.publicKey, isSigner := true, isWritable := false },
                    { pubkey := ts.tokenSaleAccount.publicKey, isSigner := false, isWritable := false },
                    { pubkey := sta, isSigner := false, isWritable := true },
                    { pubkey := ud, isSigner := false, isWritable := true },
                    { pubkey := us, isSigner := false, isWritable := true },
                    { pubkey := pd, isSigner := false, isWritable := true },
                    { pubkey := .derived [stringBytes "solrsale"] TOKEN_SALE_PROGRAM_ID, isSigner := false, isWritable := false },
                    { pubkey := ts.tokenProgramId, isSigner := false, isWritable := false },
                    { pubkey := ts.tokenWhitelistMap, isSigner := false, isWritable := true },
                    { pubkey := wa, isSigner := false, isWritable := true },
                    { pubkey := ts.tokenWhitelistProgramId, isSigner := false, isWritable := false }],
                 programId := ts.tokenSaleProgramId,
                 data := 2 :: Numberu64.leBytes 8 ea }],
           signers := [user] }) := by
  rw [TokenSale.executeTokenSale, findProgramAddress,
    executeTokenSaleInstruction_eq _ _ _ _ _ _ _ _ _ _ _ _ _ hea]
  rfl

theorem initTokenSale_eq (ts : TokenSale) (conn : Connection)
    (auth : Account) (pd sta : PublicKey) (a mn mx : Nat) (p : Rat)
    (t : Nat) (ha : a < 2 ^ 64) (hmn : mn < 2 ^ 64) (hmx : mx < 2 ^ 64)
    (hp : encodePrice p < 2 ^ 64) (ht : t < 2 ^ 64) :
    ∃ tx : Transaction,
      ts.initTokenSale conn auth pd sta a mn mx p t =
        some ([.getMinimumBalanceForRentExemption 201, .sendTransaction tx], tx) ∧
      tx =
        { instructions :=
            [.system
              { space := 201,
                lamports := conn.minimumBalanceForRentExemption 201,
                fromPubkey := auth.publicKey,
                newAccountPubkey := ts.tokenSaleAccount.publicKey,
                programId := ts.tokenSaleProgramId },
             .program
              { keys :=
                  [{ pubkey := auth.publicKey, isSigner := true, isWritable := false },
                   { pubkey := ts.tokenSaleAccount.publicKey, isSigner := false, isWritable := true },
                   { pubkey := pd, isSigner := false, isWritable := false },
                   { pubkey := sta, isSigner := false, isWritable := true },
                   { pubkey := ts.tokenWhitelistMap, isSigner := false, isWritable := false },
                   { pubkey := ts.tokenProgramId, isSigner := false, isWritable := false },
                   { pubkey := ts.tokenWhitelistProgramId, isSigner := false, isWritable := false },
                   { pubkey := SYSVAR_RENT_PUBKEY, isSigner := false, isWritable := false }],
                programId := ts.tokenSaleProgramId,
                data := 0 ::
                  (Numberu64.leBytes 8 a ++ Numberu64.leBytes 8 mn ++
                   Numberu64.leBytes 8 mx ++
                   Numberu64.leBytes 8 (encodePrice p) ++
                   Numberu64.leBytes 8 t) }],
          signers := [ts.payer, auth, ts.tokenSaleAccount] } := by
  refine ⟨_, ?_, rfl⟩
  rw [TokenSale.initTokenSale]
  rw [initTokenSaleInstruction_eq _ _ _ _ _ _ _ _ _ _ _ _ _
    ha hmn hmx hp ht]
  rfl

/-- Shorthand for a concrete keypair used in concrete instantiations. -/
def cAccount (s : String) : Account :=
  { publicKey := .ofBase58 s }

/-- A concrete client fresh out of `createTokenSale`, on which neither
`initTokenSale` nor `fundTokenSale` has ever been invoked. -/
def c2Sale : TokenSale :=
  (createTokenSale (cAccount "payer") (.ofBase58 "usdt") (.ofBase58 "solr")
    (.ofBase58 "map") TOKEN_SALE_PROGRAM_ID TOKEN_WHITELIST_PROGRAM_ID
    TOKEN_PROGRAM_ID ASSOCIATED_TOKEN_ACCOUNT_PROGRAM_ID
    (cAccount "fresh")).2

/-- Claim C2 is false on the code: the client keeps no phase state and
defines no PhaseViolation error.  On a freshly created, never-initialized
client, `fundTokenSale` does not fail before network submission: it reaches
submission, its trace being exactly one sendTransaction call; likewise
`executeTokenSale` called before any fund.  This counterexample evaluates
both calls on concrete inputs. -/
theorem c2_counterexample :
    ((c2Sale.fundTokenSale (cAccount "auth") (.ofBase58 "pool")
        (.ofBase58 "stok") 1000).map
      (fun r =>
        match r.1 with
        | [NetworkCall.sendTransaction _] => true
        | _ => false) = some true) ∧
    ((c2Sale.executeTokenSale (cAccount "user") (.ofBase58 "src")
        (.ofBase58 "dst") (.ofBase58 "stok") (.ofBase58 "pdest")
        (.ofBase58 "wacct") 500).map
      (fun r =>
        match r.1 with
        | [NetworkCall.sendTransaction _] => true
        | _ => false) = some true) := by
  constructor <;> rfl

/-- Claim C2 amended: the client performs no local phase check at all.
Whatever the client's history, `fundTokenSale` (before or after any
`initTokenSale`) and `executeTokenSale` (before or after any fund) build
their instruction and proceed directly to exactly one network submission;
no PhaseViolation error exists in the client, whose only local failure is
the numeric codec's width assertion. -/
theorem c2_amended_no_phase_check (ts : TokenSale) (auth user : Account)
    (pa sa us ud sta pd wa : PublicKey) (fa ea : Nat)
    (hfa : fa < 2 ^ 64) (hea : ea < 2 ^ 64) :
    (∃ tx, ts.fundTokenSale auth pa sa fa =
      some ([.sendTransaction tx], tx)) ∧
    (∃ tx, ts.executeTokenSale user us ud sta pd wa ea =
      some ([.sendTransaction tx], tx)) :=
  ⟨⟨_, fundTokenSale_eq ts auth pa sa fa hfa⟩,
   ⟨_, executeTokenSale_eq ts user us ud sta pd wa ea hea⟩⟩

theorem c2_amended_no_phase_check_witness :
    (∃ tx, c2Sale.fundTokenSale (cAccount "auth") (.ofBase58 "pool")
      (.ofBase58 "stok") 1000 = some ([.sendTransaction tx], tx)) ∧
    (∃ tx, c2Sale.executeTokenSale (cAccount "user") (.ofBase58 "src")
      (.ofBase58 "dst") (.ofBase58 "stok") (.ofBase58 "pdest")
      (.ofBase58 "wacct") 500 = some ([.sendTransaction tx], tx)) :=
  c2_amended_no_phase_check c2Sale (cAccount "auth") (cAccount "user")
    (.ofBase58 "pool") (.ofBase58 "stok") (.ofBase58 "src")
    (.ofBase58 "dst") (.ofBase58 "stok") (.ofBase58 "pdest")
    (.ofBase58 "wacct") 1000 500 (by norm_num) (by norm_num)

/-- The space requested by the leading create-account instruction of a
transaction, if any. -/
def firstCreateAccountSpace (tx : Transaction) : Option Nat :=
  match tx.instructions with
  | Instr.system params :: _ => some params.space
  | _ => none

/-- Claim C6: the sale-state record layout spans exactly 201 bytes (1 plus
5 times 32 plus 5 times 8), the companion create-account instruction of
every initTokenSale allocates exactly that many bytes, and decoding a
sale-state buffer whose length is not exactly 201 bytes is an error rather
than a silent truncation or partial read. -/
theorem c6_sale_state_span_201 :
    structSpan tokenSaleAccountDataLayout = 201 ∧
    (∀ (ts : TokenSale) (conn : Connection) (auth : Account)
       (pd sta : PublicKey) (a mn mx : Nat) (p : Rat) (t : Nat),
       a < 2 ^ 64 → mn < 2 ^ 64 → mx < 2 ^ 64 → encodePrice p < 2 ^ 64 →
       t < 2 ^ 64 →
       ((ts.initTokenSale conn auth pd sta a mn mx p t).map
         (fun r => firstCreateAccountSpace r.2)) = some (some 201)) ∧
    (∀ b : Bytes, b.length ≠ 201 → decodeSaleState b = none) := by
  refine ⟨rfl, ?_, ?_⟩
  · intro ts conn auth pd sta a mn mx p t ha hmn hmx hp ht
    obtain ⟨tx, heq, htx⟩ :=
      initTokenSale_eq ts conn auth pd sta a mn mx p t ha hmn hmx hp ht
    rw [heq, htx]
    rfl
  · intro b hb
    rw [decodeSaleState, if_neg]
    intro h
    exact hb (h.trans (by rfl))

/-- A concrete client and connection for instantiating the orchestrator
theorems. -/
def wSale : TokenSale :=
  (createTokenSale (cAccount "wpayer") (.ofBase58 "usdt") (.ofBase58 "solr")
    (.ofBase58 "map") TOKEN_SALE_PROGRAM_ID TOKEN_WHITELIST_PROGRAM_ID
    TOKEN_PROGRAM_ID ASSOCIATED_TOKEN_ACCOUNT_PROGRAM_ID
    (cAccount "wfresh")).2

/-- A concrete connection answering every rent-exemption query with a
fixed lamport amount. -/
def wConn : Connection :=
  { minimumBalanceForRentExemption := fun _ => 42 }

theorem c6_sale_state_span_201_witness :
    ((wSale.initTokenSale wConn (cAccount "wauth") (.ofBase58 "wpd")
        (.ofBase58 "wsta") 5 1 2 2 7).map
      (fun r => firstCreateAccountSpace r.2)) = some (some 201) ∧
    decodeSaleState [] = none :=
  ⟨c6_sale_state_span_201.2.1 wSale wConn (cAccount "wauth")
    (.ofBase58 "wpd") (.ofBase58 "wsta") 5 1 2 2 7 (by norm_num)
    (by norm_num) (by norm_num) (by norm_num [encodePrice]) (by norm_num),
   c6_sale_state_span_201.2.2 [] (by simp)⟩

/-- Claim C10: in every initTokenSale call, the companion create-account
instruction names the pool transfer authority's public key as the funding
account (fromPubkey), so the lamports paying for the new 201-byte
sale-state account are debited from the pool transfer authority and not
from the stored fee payer, while the stored payer is still the
transaction's fee payer (its first signer). -/
theorem c10_create_account_funded_by_authority (ts : TokenSale)
    (conn : Connection) (auth : Account) (pd sta : PublicKey)
    (a mn mx : Nat) (p : Rat) (t : Nat)
    (ha : a < 2 ^ 64) (hmn : mn < 2 ^ 64) (hmx : mx < 2 ^ 64)
    (hp : encodePrice p < 2 ^ 64) (ht : t < 2 ^ 64) :
    ((ts.initTokenSale conn auth pd sta a mn mx p t).map
      (fun r => (r.2.instructions.head?, r.2.feePayer))) =
    some
      (some (.system
        { space := 201,
          lamports := conn.minimumBalanceForRentExemption 201,
          fromPubkey := auth.publicKey,
          newAccountPubkey := ts.tokenSaleAccount.publicKey,
          programId := ts.tokenSaleProgramId }),
       some ts.payer.publicKey) := by
  obtain ⟨tx, heq, htx⟩ :=
    initTokenSale_eq ts conn auth pd sta a mn mx p t ha hmn hmx hp ht
  rw [heq, htx]
  rfl

theorem c10_create_account_funded_by_authority_witness :
    ((wSale.initTokenSale wConn (cAccount "xauth") (.ofBase58 "xpd")
        (.ofBase58 "xsta") 6 1 2 2 7).map
      (fun r => (r.2.instructions.head?, r.2.feePayer))) =
    some
      (some (.system
        { space := 201,
          lamports := wConn.minimumBalanceForRentExemption 201,
          fromPubkey := (cAccount "xauth").publicKey,
          newAccountPubkey := wSale.tokenSaleAccount.publicKey,
          programId := wSale.tokenSaleProgramId }),
       some wSale.payer.publicKey) :=
  c10_create_account_funded_by_authority wSale wConn (cAccount "xauth")
    (.ofBase58 "xpd") (.ofBase58 "xsta") 6 1 2 2 7 (by norm_num)
    (by norm_num) (by norm_num) (by norm_num [encodePrice]) (by norm_num)

/-- Claim C8: createTokenSale performs no network call (its trace is
empty), stores the freshly generated keypair as the sale-state account,
and therefore two calls with identical inputs but distinct generated
keypairs yield distinct sale-state addresses. -/
theorem c8_create_pure_and_fresh (payer : Account)
    (m1 m2 wm sp wp tp ap : PublicKey) (fresh fresh2 : Account)
    (hne : fresh.publicKey ≠ fresh2.publicKey) :
    (createTokenSale payer m1 m2 wm sp wp tp ap fresh).1 = [] ∧
    (createTokenSale payer m1 m2 wm sp wp tp ap fresh).2.tokenSaleAccount =
      fresh ∧
    (createTokenSale payer m1 m2 wm sp wp tp ap
        fresh).2.tokenSaleAccount.publicKey ≠
      (createTokenSale payer m1 m2 wm sp wp tp ap
        fresh2).2.tokenSaleAccount.publicKey :=
  ⟨rfl, rfl, hne⟩

theorem c8_create_pure_and_fresh_witness :
    (createTokenSale (cAccount "p") (.ofBase58 "u") (.ofBase58 "s")
      (.ofBase58 "m") TOKEN_SALE_PROGRAM_ID TOKEN_WHITELIST_PROGRAM_ID
      TOKEN_PROGRAM_ID ASSOCIATED_TOKEN_ACCOUNT_PROGRAM_ID
      (cAccount "A")).1 = [] ∧
    (createTokenSale (cAccount "p") (.ofBase58 "u") (.ofBase58 "s")
      (.ofBase58 "m") TOKEN_SALE_PROGRAM_ID TOKEN_WHITELIST_PROGRAM_ID
      TOKEN_PROGRAM_ID ASSOCIATED_TOKEN_ACCOUNT_PROGRAM_ID
      (cAccount "A")).2.tokenSaleAccount = cAccount "A" ∧
    (createTokenSale (cAccount "p") (.ofBase58 "u") (.ofBase58 "s")
      (.ofBase58 "m") TOKEN_SALE_PROGRAM_ID TOKEN_WHITELIST_PROGRAM_ID
      TOKEN_PROGRAM_ID ASSOCIATED_TOKEN_ACCOUNT_PROGRAM_ID
      (cAccount "A")).2.tokenSaleAccount.publicKey ≠
      (createTokenSale (cAccount "p") (.ofBase58 "u") (.ofBase58 "s")
        (.ofBase58 "m") TOKEN_SALE_PROGRAM_ID TOKEN_WHITELIST_PROGRAM_ID
        TOKEN_PROGRAM_ID ASSOCIATED_TOKEN_ACCOUNT_PROGRAM_ID
        (cAccount "B")).2.tokenSaleAccount.publicKey :=
  c8_create_pure_and_fresh (cAccount "p") (.ofBase58 "u") (.ofBase58 "s")
    (.ofBase58 "m") TOKEN_SALE_PROGRAM_ID TOKEN_WHITELIST_PROGRAM_ID
    TOKEN_PROGRAM_ID ASSOCIATED_TOKEN_ACCOUNT_PROGRAM_ID (cAccount "A")
    (cAccount "B") (by decide)

/-- The derived-authority account reference (7th entry, index 6) of the
Execute instruction inside an executeTokenSale result. -/
def executeAuthority (r : Option (List NetworkCall × Transaction)) :
    Option PublicKey :=
  match r with
  | some (_, tx) =>
    match tx.instructions with
    | [Instr.program ix] => (ix.keys.get? 6).map AccountMeta.pubkey
    | _ => none
  | _ => none

/-- Claim C9: the derived-authority account placed in every Execute
instruction is computed from the single seed solrsale under the
module-level constant TOKEN_SALE_PROGRAM_ID, independent of the
tokenSaleProgramId the TokenSale instance was constructed with: two
instances with different sale program ids emit Execute instructions with
the same derived-authority address. -/
theorem c9_derived_authority_ignores_instance (ts1 ts2 : TokenSale)
    (u1 u2 : Account)
    (us1 ud1 sta1 pd1 wa1 us2 ud2 sta2 pd2 wa2 : PublicKey)
    (ea1 ea2 : Nat) (h1 : ea1 < 2 ^ 64) (h2 : ea2 < 2 ^ 64)
    (_hneq : ts1.tokenSaleProgramId ≠ ts2.tokenSaleProgramId) :
    executeAuthority (ts1.executeTokenSale u1 us1 ud1 sta1 pd1 wa1 ea1) =
      some (.derived [stringBytes "solrsale"] TOKEN_SALE_PROGRAM_ID) ∧
    executeAuthority (ts2.executeTokenSale u2 us2 ud2 sta2 pd2 wa2 ea2) =
      some (.derived [stringBytes "solrsale"] TOKEN_SALE_PROGRAM_ID) ∧
    executeAuthority (ts1.executeTokenSale u1 us1 ud1 sta1 pd1 wa1 ea1) =
      executeAuthority (ts2.executeTokenSale u2 us2 ud2 sta2 pd2 wa2 ea2) := by
  rw [executeTokenSale_eq ts1 u1 us1 ud1 sta1 pd1 wa1 ea1 h1,
    executeTokenSale_eq ts2 u2 us2 ud2 sta2 pd2 wa2 ea2 h2]
  exact ⟨rfl, rfl, rfl⟩

/-- A second concrete client whose sale program id differs from the
module-level constant. -/
def wSaleOther : TokenSale :=
  (createTokenSale (cAccount "wpayer") (.ofBase58 "usdt") (.ofBase58 "solr")
    (.ofBase58 "map") (.ofBase58 "someOtherSaleProgram")
    TOKEN_WHITELIST_PROGRAM_ID TOKEN_PROGRAM_ID
    ASSOCIATED_TOKEN_ACCOUNT_PROGRAM_ID (cAccount "wfresh")).2

theorem c9_derived_authority_ignores_instance_witness :
    executeAuthority (wSale.executeTokenSale (cAccount "u1")
        (.ofBase58 "us1") (.ofBase58 "ud1") (.ofBase58 "sta1")
        (.ofBase58 "pd1") (.ofBase58 "wa1") 11) =
      some (.derived [stringBytes "solrsale"] TOKEN_SALE_PROGRAM_ID) ∧
    executeAuthority (wSaleOther.executeTokenSale (cAccount "u2")
        (.ofBase58 "us2") (.ofBase58 "ud2") (.ofBase58 "sta2")
        (.ofBase58 "pd2") (.ofBase58 "wa2") 12) =
      some (.derived [stringBytes "solrsale"] TOKEN_SALE_PROGRAM_ID) ∧
    executeAuthority (wSale.executeTokenSale (cAccount "u1")
        (.ofBase58 "us1") (.ofBase58 "ud1") (.ofBase58 "sta1")
        (.ofBase58 "pd1") (.ofBase58 "wa1") 11) =
      executeAuthority (wSaleOther.executeTokenSale (cAccount "u2")
        (.ofBase58 "us2") (.ofBase58 "ud2") (.ofBase58 "sta2")
        (.ofBase58 "pd2") (.ofBase58 "wa2") 12) :=
  c9_derived_authority_ignores_instance wSale wSaleOther (cAccount "u1")
    (cAccount "u2") (.ofBase58 "us1") (.ofBase58 "ud1") (.ofBase58 "sta1")
    (.ofBase58 "pd1") (.ofBase58 "wa1") (.ofBase58 "us2") (.ofBase58 "ud2")
    (.ofBase58 "sta2") (.ofBase58 "pd2") (.ofBase58 "wa2") 11 12
    (by norm_num) (by norm_num) (by decide)

theorem data_field_at_offset_25 (A B C P T : Bytes) (hA : A.length = 8)
    (hB : B.length = 8) (hC : C.length = 8) (hP : P.length = 8) :
    ((0 :: (A ++ B ++ C ++ P ++ T)).drop 25).take 8 = P := by
  have h24 : ((A ++ B) ++ C).length = 24 := by
    simp [hA, hB, hC]
  have hstep : (0 :: (A ++ B ++ C ++ P ++ T)).drop 25 =
      (A ++ B ++ C ++ P ++ T).drop 24 := rfl
  rw [hstep, List.append_assoc ((A ++ B) ++ C) P T, ← h24, List.drop_left,
    ← hP, List.take_left]

/-- Claim C1 is false on the code: `initTokenSaleInstruction` encodes the
price field as the price multiplied by 100 (truncated), not as the
reciprocal of the price times 100.  At price 0.1 with small concrete
arguments, the 8-byte token_sale_price field of the built data decodes to
10, not to the claimed round(1 divided by 0.1) times 100 = 1000. -/
theorem c1_counterexample :
    ((initTokenSaleInstruction TOKEN_SALE_PROGRAM_ID 5 1 2 (1 / 10) 7
        (.ofBase58 "auth") (.ofBase58 "state") (.ofBase58 "dest")
        (.ofBase58 "stok") TOKEN_PROGRAM_ID TOKEN_WHITELIST_PROGRAM_ID
        (.ofBase58 "map")).map
      (fun ix => Numberu64.fromBuffer ((ix.data.drop 25).take 8)) =
      some (some 10)) ∧ (10 : Nat) ≠ 1000 := by
  have hp : encodePrice (1 / 10) = 10 := by
    norm_num [encodePrice]
    rfl
  constructor
  · rw [initTokenSaleInstruction_eq _ _ _ _ _ _ _ _ _ _ _ _ _
      (by norm_num) (by norm_num) (by norm_num) (by rw [hp]; norm_num)
      (by norm_num), hp]
    rfl
  · decide

/-- Claim C1 amended: for every Init instruction built by
initTokenSaleInstruction with price p, the 8-byte token_sale_price field
of the instruction data encodes the integer part of p times 100 (the
source computes price times 100 and the big-number constructor truncates);
in particular, for p = 0.1 the encoded value is 10. -/
theorem c1_amended_price_field (pid : PublicKey) (a mn mx : Nat) (p : Rat)
    (t : Nat) (k1 k2 k3 k4 k5 k6 k7 : PublicKey)
    (ha : a < 2 ^ 64) (hmn : mn < 2 ^ 64) (hmx : mx < 2 ^ 64)
    (hp : encodePrice p < 2 ^ 64) (ht : t < 2 ^ 64) :
    ((initTokenSaleInstruction pid a mn mx p t k1 k2 k3 k4 k5 k6 k7).map
      (fun ix => Numberu64.fromBuffer ((ix.data.drop 25).take 8))) =
    some (some (encodePrice p)) := by
  rw [initTokenSaleInstruction_eq pid a mn mx p t k1 k2 k3 k4 k5 k6 k7
    ha hmn hmx hp ht]
  have h256 : (2 : Nat) ^ 64 = 256 ^ 8 := by norm_num
  simp only [Option.map_some']
  rw [data_field_at_offset_25 _ _ _ _ _ (Numberu64.leBytes_length 8 a)
    (Numberu64.leBytes_length 8 mn) (Numberu64.leBytes_length 8 mx)
    (Numberu64.leBytes_length 8 (encodePrice p))]
  rw [Numberu64.fromBuffer,
    if_pos (Numberu64.leBytes_length 8 (encodePrice p)),
    Numberu64.ofDigits_leBytes 8 (encodePrice p) (h256 ▸ hp)]

theorem c1_amended_price_field_witness :
    ((initTokenSaleInstruction TOKEN_SALE_PROGRAM_ID 50 10 20 (1 / 10) 70
        (.ofBase58 "auth") (.ofBase58 "state") (.ofBase58 "dest")
        (.ofBase58 "stok") TOKEN_PROGRAM_ID TOKEN_WHITELIST_PROGRAM_ID
        (.ofBase58 "map")).map
      (fun ix => Numberu64.fromBuffer ((ix.data.drop 25).take 8))) =
    some (some 10) := by
  have hp : encodePrice (1 / 10) = 10 := by
    norm_num [encodePrice]
    rfl
  have h := c1_amended_price_field TOKEN_SALE_PROGRAM_ID 50 10 20 (1 / 10)
    70 (.ofBase58 "auth") (.ofBase58 "state") (.ofBase58 "dest")
    (.ofBase58 "stok") TOKEN_PROGRAM_ID TOKEN_WHITELIST_PROGRAM_ID
    (.ofBase58 "map") (by norm_num) (by norm_num) (by norm_num)
    (by rw [hp]; norm_num) (by norm_num)
  rw [h, hp]
